import Mathlib

/-!
Verification of the MCPHomeAutomation command-routing core.

This file shallowly embeds the two components of the decision/execution core:

* the intent classifier `shouldUseAnsible` of the ansible-ssh-decider server
  (documents-mcp-server/index.mjs, rule-cascade version), together with the
  superseded vote-counting variant that also appears in that file; and
* the guarded process executor `runCommand` of the ansible-mcp-server
  (ansible-mcp-server/index.mjs), with its admission control, allow-list,
  argument sanitisation, deadline kill and guaranteed-release `finally`.

JavaScript strings are modelled as Lean `String`s; `String.prototype.includes`
as substring containment on the character list, `toLowerCase`/`trim` as the
corresponding character-wise maps (all inputs of interest are ASCII).
The JavaScript `Set` holding in-flight command ids is modelled as a
duplicate-free insertion-ordered list, which is exactly its semantics.
-/

namespace MCP

/-! ## JavaScript string primitives -/

/-- Does `needle` occur at the head of `hay`?  (Helper for `jsIncludes`.) -/
def startsWithChars : List Char → List Char → Bool
  | [], _ => true
  | _ :: _, [] => false
  | n :: ns, h :: hs => n == h && startsWithChars ns hs

/-- Does `needle` occur contiguously anywhere in `hay`?  (Helper for `jsIncludes`.) -/
def containsChars (needle : List Char) : List Char → Bool
  | [] => needle.isEmpty
  | h :: hs => startsWithChars needle (h :: hs) || containsChars needle hs

/-- Model of JavaScript `s.includes(sub)`: contiguous substring containment. -/
def jsIncludes (s sub : String) : Bool :=
  containsChars sub.data s.data

/-- Model of JavaScript `s.toLowerCase()` (character-wise; inputs are ASCII). -/
def jsToLower (s : String) : String :=
  ⟨s.data.map Char.toLower⟩

/-- Model of JavaScript `s.trim()`: strip leading and trailing whitespace. -/
def jsTrim (s : String) : String :=
  ⟨((s.data.dropWhile Char.isWhitespace).reverse.dropWhile Char.isWhitespace).reverse⟩

/-! ## Intent classifier (documents-mcp-server/index.mjs, rule-cascade version)

Keyword lists transcribed verbatim from the source. -/

def SUDO_INDICATORS : List String :=
  ["sudo", "su ", "su -", "become", "--become", "-b", "privileges", "root",
   "chmod 777", "chmod +x", "chown", "usermod", "groupmod", "passwd",
   "systemctl", "service ", "init.d", "/etc/", "mount", "umount", "fdisk",
   "mkfs", "format", "partition"]

def CONFIG_CHANGE_KEYWORDS : List String :=
  ["install", "remove", "purge", "upgrade", "update", "configure", "setup",
   "create", "delete", "modify", "change", "set", "enable", "disable",
   "start", "stop", "restart", "reload", "kill", "add", "append", "replace",
   "backup", "restore", "mount", "unmount", "format", "mkfs", "fdisk",
   "apt", "yum", "dnf", "pacman", "brew", "pip", "npm", "gem", "cargo",
   "wget", "curl.*-O", "git clone", "mkdir", "touch", "echo.*>", "cp ", "mv ",
   "ln ", "tar ", "unzip", "gunzip", "gzip"]

def STATUS_QUERY_KEYWORDS : List String :=
  ["status", "show", "list", "get", "check", "monitor", "ps", "top", "df",
   "free", "uptime", "who", "w", "tail", "head", "grep", "find", "ls",
   "cat", "echo", "date", "hostname", "ifconfig", "ip", "netstat", "ss",
   "du", "pwd", "id", "whoami", "env", "printenv", "history"]

def IDEMPOTENT_OPERATIONS : List String :=
  ["apt", "yum", "dnf", "pacman", "brew", "pip", "npm", "gem",
   "systemctl", "service", "chkconfig", "update-rc.d",
   "useradd", "usermod", "groupadd", "groupmod",
   "mkdir", "touch", "chown", "chmod", "ln -s"]

/-- `const text = (description + " " + command).toLowerCase()`. -/
def combinedText (description command : String) : String :=
  jsToLower (description ++ " " ++ command)

/-- RULE 1 condition: file-write / redirection constructs in the command. -/
def rule1Fires (cmd : String) : Bool :=
  jsIncludes cmd ">" || jsIncludes cmd ">>" || jsIncludes cmd "| tee" ||
    (jsIncludes cmd "echo" && (jsIncludes cmd ">" || jsIncludes cmd ">>"))

/-- RULE 2 condition: any sudo / privilege indicator in the command. -/
def rule2Fires (cmd : String) : Bool :=
  SUDO_INDICATORS.any (fun indicator => jsIncludes cmd indicator)

/-- RULE 3 condition: network-configuration utilities in the command. -/
def rule3Fires (cmd : String) : Bool :=
  jsIncludes cmd "iptables" || jsIncludes cmd "ufw" || jsIncludes cmd "firewall" ||
    jsIncludes cmd "route" || jsIncludes cmd "ifconfig" || jsIncludes cmd "ip addr"

/-- RULE 4 condition: idempotent package / service operation in the command. -/
def rule4Fires (cmd : String) : Bool :=
  IDEMPOTENT_OPERATIONS.any (fun operation => jsIncludes cmd operation)

/-- RULE 5 condition: config-change keyword in the combined text. -/
def rule5Fires (text : String) : Bool :=
  CONFIG_CHANGE_KEYWORDS.any (fun keyword => jsIncludes text keyword)

/-- RULE 6 condition: status-query keyword in the combined text. -/
def rule6Fires (text : String) : Bool :=
  STATUS_QUERY_KEYWORDS.any (fun keyword => jsIncludes text keyword)

/-- The rule-cascade classifier `shouldUseAnsible(description, command)`
(documents-mcp-server/index.mjs lines 815-868): sequential `if` returns,
first matching rule decides; `true` = ConfigManagement/Ansible,
`false` = DirectExec/SSH. -/
def shouldUseAnsible (description command : String) : Bool :=
  if rule1Fires (jsToLower command) then true
  else if rule2Fires (jsToLower command) then true
  else if rule3Fires (jsToLower command) then true
  else if rule4Fires (jsToLower command) then true
  else if rule5Fires (combinedText description command) then true
  else if rule6Fires (combinedText description command) then false
  else false

/-- Which rule index (1-7) fires first on a given input. -/
def firingRule (description command : String) : Nat :=
  if rule1Fires (jsToLower command) then 1
  else if rule2Fires (jsToLower command) then 2
  else if rule3Fires (jsToLower command) then 3
  else if rule4Fires (jsToLower command) then 4
  else if rule5Fires (combinedText description command) then 5
  else if rule6Fires (combinedText description command) then 6
  else 7

/-! ### Superseded vote-counting variant
(documents-mcp-server/index.mjs lines 622-649, the earlier decider snapshot). -/

def ANSIBLE_KEYWORDS : List String :=
  ["install", "configure", "remove", "kill", "modify", "change", "update",
   "create", "delete", "set", "enable", "disable", "restart", "stop", "start",
   "upgrade", "downgrade", "add", "append", "replace", "backup", "restore",
   "mount", "unmount", "format", "partition", "service", "systemctl", "apt",
   "yum", "dnf", "pacman", "brew", "pip", "npm", "gem"]

def SSH_KEYWORDS : List String :=
  ["status", "show", "list", "get", "check", "monitor", "ps", "top", "df",
   "free", "uptime", "who", "w", "tail", "head", "grep", "find", "ls",
   "cat", "echo", "date", "hostname", "ifconfig", "ip", "netstat", "ss"]

/-- The superseded `shouldUseAnsible` at lines 637-649: counts keyword
matches in each category and compares the counts. -/
def shouldUseAnsibleLegacy (description command : String) : Bool :=
  let text := combinedText description command
  let ansibleMatches := (ANSIBLE_KEYWORDS.filter (fun keyword => jsIncludes text keyword)).length
  let sshMatches := (SSH_KEYWORDS.filter (fun keyword => jsIncludes text keyword)).length
  if sshMatches < ansibleMatches then true else false

/-! ## Guarded process executor (ansible-mcp-server/index.mjs)

`runCommand(command, args, options)` of class `AnsibleMCPServer`:
admission control against `CONFIG.MAX_CONCURRENT_COMMANDS`, the
`allowedCommands` allow-list, string-only argument sanitisation, a spawn
with an argument vector, stream capture, a `COMMAND_TIMEOUT` kill handler,
and a `finally` clause deleting the command id from `activeCommands`. -/

/-- The configuration fields the executor consumes
(`CONFIG.MAX_CONCURRENT_COMMANDS`, `CONFIG.COMMAND_TIMEOUT`). -/
structure Config where
  maxConcurrentCommands : Nat
  commandTimeout : Nat
deriving DecidableEq

/-- The defaults used when no environment override is present. -/
def defaultConfig : Config :=
  { maxConcurrentCommands := 3, commandTimeout := 30000 }

/-- JavaScript `Set.prototype.add` on an insertion-ordered duplicate-free
list: appending is a no-op when the element is already present. -/
def jsSetAdd (s : List String) (x : String) : List String :=
  if x ∈ s then s else s ++ [x]

/-- JavaScript `Set.prototype.delete`. -/
def jsSetDelete (s : List String) (x : String) : List String :=
  s.erase x

/-- A JavaScript value passed in the `args` array: a string, or anything
else (which the sanitiser rejects). -/
inductive JSArg where
  | str (value : String)
  | nonString
deriving DecidableEq

/-- `args.map(arg => { if (typeof arg !== 'string') throw ...; return arg })`:
yields the string vector, or fails at the first non-string element. -/
def sanitizeArgs : List JSArg → Option (List String)
  | [] => some []
  | JSArg.str v :: rest => (sanitizeArgs rest).map (fun tail => v :: tail)
  | JSArg.nonString :: _ => none

/-- `const allowedCommands = ['ansible', 'ansible-playbook']`. -/
def allowedCommands : List String := ["ansible", "ansible-playbook"]

/-- The observable behaviour of the spawned child process, as seen by the
promise: it exits on its own before the deadline (`close` with its exit
code), it fails to start (`error`), or it is still running at the
`COMMAND_TIMEOUT` deadline.  In the last case spawn's own `timeout` option
— an internal timer created inside `spawn()`, hence registered before the
handler's `setTimeout` of identical duration — fires first, sends SIGTERM
and sets `child.killed`, so the handler's `if (!child.killed)` guard skips
its reject; the killed child then emits `close` with `code` null, which
resolves the promise.  (A child that ignores SIGTERM never settles the
promise at all and is outside this model of settling calls.) -/
inductive ChildBehavior where
  | closes (code : Option Int) (stdout stderr : String)
  | failsToStart (message : String)
  | killedAtDeadline (stdout stderr : String)
deriving DecidableEq

/-- The rejection reasons of `runCommand`.  `timedOut` is the error the
`setTimeout` handler would reject with; since spawn's own timeout always
kills the child first, no settling execution ever produces it. -/
inductive RunError where
  | tooManyConcurrent
  | commandNotAllowed (command : String)
  | nonStringArgument
  | startFailed (message : String)
  | timedOut (timeoutMs : Nat)
deriving DecidableEq

/-- The resolved value of `runCommand`: `{ code, stdout, stderr, success }`. -/
structure RunResult where
  code : Option Int
  stdout : String
  stderr : String
  success : Bool
deriving DecidableEq

/-- Promise settlement: resolved with a result or rejected with an error. -/
inductive RunReply where
  | resolved (result : RunResult)
  | rejected (error : RunError)
deriving DecidableEq

/-- How an external program is invoked: `spawn(program, argv)` with an
argument vector, or a single command line handed to a shell (`execSync`). -/
inductive Invocation where
  | argvSpawn (program : String) (argv : List String)
  | shellExec (commandLine : String)
deriving DecidableEq

/-- Does this invocation hand a concatenated command line to a shell? -/
def Invocation.usesShell : Invocation → Bool
  | .argvSpawn _ _ => false
  | .shellExec _ => true

/-- Everything observable about one `runCommand` call: its settlement, the
`activeCommands` contents while its body ran and after its `finally`,
the spawn it performed (if any), and whether the spawn timeout killed
the child at the deadline. -/
structure RunOutcome where
  reply : RunReply
  duringActive : List String
  finalActive : List String
  spawned : Option Invocation
  killedByTimeout : Bool
deriving DecidableEq

/-- The admission control at the top of `runCommand`: reject when
`activeCommands.size >= CONFIG.MAX_CONCURRENT_COMMANDS`, otherwise add the
command id. -/
def admitCommand (cfg : Config) (active : List String) (commandId : String) :
    Option (List String) :=
  if cfg.maxConcurrentCommands ≤ active.length then none
  else some (jsSetAdd active commandId)

/-- `AnsibleMCPServer.runCommand` (ansible-mcp-server/index.mjs lines
396-471).  The fresh random `commandId` is a parameter; `child` is the
behaviour of the spawned process.  A child still alive at the deadline is
killed by spawn's `timeout` option and its subsequent `close` (with `code`
null) resolves the promise through the ordinary close handler — the
`setTimeout` handler's reject is dead code, see `ChildBehavior`. -/
def runCommand (cfg : Config) (active : List String) (commandId : String)
    (command : String) (args : List JSArg) (child : ChildBehavior) : RunOutcome :=
  match admitCommand cfg active commandId with
  | none =>
      { reply := .rejected .tooManyConcurrent
        duringActive := active
        finalActive := active
        spawned := none
        killedByTimeout := false }
  | some during =>
      let settle : RunReply × Option Invocation × Bool :=
        if (allowedCommands.contains command) = false then
          (.rejected (.commandNotAllowed command), none, false)
        else
          match sanitizeArgs args with
          | none => (.rejected .nonStringArgument, none, false)
          | some sanitized =>
            match child with
            | .closes code out err =>
                (.resolved { code := code, stdout := jsTrim out, stderr := jsTrim err,
                             success := code == some 0 },
                 some (.argvSpawn command sanitized), false)
            | .failsToStart msg =>
                (.rejected (.startFailed msg), some (.argvSpawn command sanitized), false)
            | .killedAtDeadline out err =>
                (.resolved { code := none, stdout := jsTrim out, stderr := jsTrim err,
                             success := (none : Option Int) == some 0 },
                 some (.argvSpawn command sanitized), true)
      { reply := settle.1
        duringActive := during
        finalActive := jsSetDelete during commandId
        spawned := settle.2.1
        killedByTimeout := settle.2.2 }

/-- One atomic mutation of the shared `activeCommands` set: a call passing
(or failing) admission, or a call's `finally` releasing its id.  Concurrent
calls interleave these events arbitrarily. -/
inductive Event where
  | start (commandId : String)
  | finish (commandId : String)
deriving DecidableEq

/-- Effect of one event on `activeCommands` (exactly the mutations
`runCommand` performs). -/
def stepState (cfg : Config) (active : List String) : Event → List String
  | .start commandId => (admitCommand cfg active commandId).getD active
  | .finish commandId => jsSetDelete active commandId

/-- Every state of `activeCommands` reached along an event sequence. -/
def statesFrom (cfg : Config) (active : List String) : List Event → List (List String)
  | [] => [active]
  | e :: es => active :: statesFrom cfg (stepState cfg active e) es

/-! ### The decider's dispatch executors (documents-mcp-server/index.mjs)
and the device-tool invocations (ansible-mcp-server/index.mjs). -/

/-- JavaScript `command.replace(/"/g, String.raw)` escaping: each double
quote becomes backslash-quote. -/
def jsReplaceQuotes (s : String) : String :=
  ⟨(s.data.map (fun ch => if ch = '"' then ['\\', '"'] else [ch])).flatten⟩

/-- The command line built by `executeWithAnsible`:
`ansible -i INVENTORY -m command -a "COMMAND" HOST`. -/
def ansibleCmdString (inventoryPath command host : String) : String :=
  "ansible -i " ++ inventoryPath ++ " -m command -a \"" ++
    jsReplaceQuotes command ++ "\" " ++ host

/-- `executeWithAnsible(host, command)` hands the concatenated command line
to `execSync`, i.e. to a shell. -/
def executeWithAnsibleInvocation (inventoryPath host command : String) : Invocation :=
  .shellExec (ansibleCmdString inventoryPath command host)

/-- Programs `listLilygoDevices` passes to `runCommand`. -/
def listLilygoDevicesPrograms : List String := ["ls", "ioreg"]

/-- Programs `flashLilygoFirmware` passes to `runCommand`. -/
def flashLilygoFirmwarePrograms : List String :=
  ["python", "/Users/david/Documents/Ansible/.venv/bin/python"]

/-- Program `monitorLilygoSerial` passes to `runCommand`. -/
def monitorLilygoSerialProgram : String := "timeout"

/-- Program `sendLilygoCommand` passes to `runCommand`. -/
def sendLilygoCommandProgram : String := "sh"

/-- All programs the LilyGo device tools hand to `runCommand`. -/
def deviceToolPrograms : List String :=
  listLilygoDevicesPrograms ++ flashLilygoFirmwarePrograms ++
    [monitorLilygoSerialProgram, sendLilygoCommandProgram]

end MCP

namespace MCP

/-! ## Classifier theorems -/

/-- C1: rule precedence of the intent classifier.  Whenever the combined
lower-cased text of (description, command) contains both a status-query
keyword (rule 6) and a config-change keyword (rule 5), the classifier
returns the earlier-numbered rule's decision, ConfigManagement/Ansible
(`true`) — first match wins, never a count of keyword matches. -/
theorem shouldUseAnsible_rule_precedence (d c : String)
    (_hstatus : ∃ k ∈ STATUS_QUERY_KEYWORDS, jsIncludes (combinedText d c) k = true)
    (hconfig : ∃ k ∈ CONFIG_CHANGE_KEYWORDS, jsIncludes (combinedText d c) k = true) :
    shouldUseAnsible d c = true := by
  obtain ⟨k, hk, hik⟩ := hconfig
  have h5 : rule5Fires (combinedText d c) = true :=
    List.any_eq_true.mpr ⟨k, hk, hik⟩
  simp [shouldUseAnsible, h5]

/-- Witness for C1: a text with five status-query keyword matches and a
single config-change keyword still routes to Ansible. -/
theorem shouldUseAnsible_rule_precedence_witness :
    shouldUseAnsible "show status and check uptime" "restart it" = true :=
  shouldUseAnsible_rule_precedence "show status and check uptime" "restart it"
    ⟨"status", by decide, by decide⟩ ⟨"restart", by decide, by decide⟩

/-- C2: rule-1 dominance.  If the lower-cased command contains a
redirection or pipe-to-writer construct, the classifier returns
ConfigManagement/Ansible (`true`) regardless of all other keyword content
of the description or command. -/
theorem shouldUseAnsible_redirect_dominance (d c : String)
    (h : jsIncludes (jsToLower c) ">" = true ∨ jsIncludes (jsToLower c) ">>" = true ∨
         jsIncludes (jsToLower c) "| tee" = true) :
    shouldUseAnsible d c = true := by
  have h1 : rule1Fires (jsToLower c) = true := by
    rcases h with h | h | h <;> simp [rule1Fires, h]
  simp [shouldUseAnsible, h1]

/-- Witness for C2: a redirecting command routes to Ansible even with a
status-query description. -/
theorem shouldUseAnsible_redirect_dominance_witness :
    shouldUseAnsible "Check status" "echo x > /etc/resolv.conf" = true :=
  shouldUseAnsible_redirect_dominance "Check status" "echo x > /etc/resolv.conf"
    (Or.inl (by decide))

/-- C8: totality and determinism.  On every pair of strings the classifier
yields a boolean decision (it is a total function), and equal inputs yield
equal decisions. -/
theorem shouldUseAnsible_total_deterministic (d c d' c' : String)
    (hd : d = d') (hc : c = c') :
    (shouldUseAnsible d c = true ∨ shouldUseAnsible d c = false) ∧
    shouldUseAnsible d c = shouldUseAnsible d' c' := by
  subst hd
  subst hc
  refine ⟨?_, rfl⟩
  cases h : shouldUseAnsible d c
  · exact Or.inr rfl
  · exact Or.inl rfl

/-- Witness for C8 at a concrete input pair. -/
theorem shouldUseAnsible_total_deterministic_witness :
    (shouldUseAnsible "Get disk usage" "df -h" = true ∨
      shouldUseAnsible "Get disk usage" "df -h" = false) ∧
    shouldUseAnsible "Get disk usage" "df -h" = shouldUseAnsible "Get disk usage" "df -h" :=
  shouldUseAnsible_total_deterministic "Get disk usage" "df -h" "Get disk usage" "df -h" rfl rfl

/-- C9: the status-query scenario.  On description "Check running
processes" and command "ps aux | grep python" none of rules 1-5 fires,
rule 6 decides, and the classifier returns DirectExec/SSH (`false`). -/
theorem shouldUseAnsible_ps_aux_scenario :
    shouldUseAnsible "Check running processes" "ps aux | grep python" = false ∧
    rule1Fires (jsToLower "ps aux | grep python") = false ∧
    rule2Fires (jsToLower "ps aux | grep python") = false ∧
    rule3Fires (jsToLower "ps aux | grep python") = false ∧
    rule4Fires (jsToLower "ps aux | grep python") = false ∧
    rule5Fires (combinedText "Check running processes" "ps aux | grep python") = false ∧
    firingRule "Check running processes" "ps aux | grep python" = 6 := by
  decide

/-- Documentation only: the superseded vote-counting variant disagrees with
the rule-cascade classifier (and with the precedence property) when
status-query matches outnumber config-change matches. -/
theorem shouldUseAnsibleLegacy_diverges :
    shouldUseAnsibleLegacy "show status and check uptime" "restart it" = false ∧
    shouldUseAnsible "show status and check uptime" "restart it" = true := by
  decide

end MCP

namespace MCP

/-! ## Executor lemmas -/

/-- Adding to the modelled `Set` grows it by at most one element. -/
theorem length_jsSetAdd_le (s : List String) (x : String) :
    (jsSetAdd s x).length ≤ s.length + 1 := by
  unfold jsSetAdd
  split
  · exact Nat.le_succ _
  · simp

/-- Deleting from the modelled `Set` never grows it. -/
theorem length_jsSetDelete_le (s : List String) (x : String) :
    (jsSetDelete s x).length ≤ s.length := by
  unfold jsSetDelete
  by_cases h : x ∈ s
  · rw [List.length_erase_of_mem h]
    exact Nat.sub_le _ _
  · rw [List.erase_of_not_mem h]

/-- Deleting a freshly added element restores the original set. -/
theorem jsSetDelete_jsSetAdd (s : List String) (x : String) (h : x ∉ s) :
    jsSetDelete (jsSetAdd s x) x = s := by
  unfold jsSetAdd jsSetDelete
  rw [if_neg h, List.erase_append_right _ h, List.erase_cons_head]
  simp

/-- One event keeps `activeCommands` within the concurrency ceiling. -/
theorem stepState_bounded (cfg : Config) (active : List String) (e : Event)
    (h : active.length ≤ cfg.maxConcurrentCommands) :
    (stepState cfg active e).length ≤ cfg.maxConcurrentCommands := by
  cases e with
  | start commandId =>
      simp only [stepState]
      unfold admitCommand
      split
      · simpa using h
      · rename_i hcap
        have hlt : active.length < cfg.maxConcurrentCommands := Nat.lt_of_not_le hcap
        simpa using le_trans (length_jsSetAdd_le active commandId) hlt
  | finish commandId =>
      simp only [stepState]
      exact le_trans (length_jsSetDelete_le active commandId) h

/-- Every state along an event sequence stays within the ceiling. -/
theorem statesFrom_bounded (cfg : Config) :
    ∀ (events : List Event) (active : List String),
      active.length ≤ cfg.maxConcurrentCommands →
      ∀ st ∈ statesFrom cfg active events, st.length ≤ cfg.maxConcurrentCommands := by
  intro events
  induction events with
  | nil =>
      intro active h st hst
      simp only [statesFrom, List.mem_singleton] at hst
      exact hst ▸ h
  | cons e es ih =>
      intro active h st hst
      simp only [statesFrom, List.mem_cons] at hst
      rcases hst with rfl | hst
      · exact h
      · exact ih (stepState cfg active e) (stepState_bounded cfg active e h) st hst

/-! ## Executor theorems -/

/-- C3: admission control.  Along any interleaving of `runCommand`
admissions and releases starting from the empty set, `activeCommands`
never exceeds `MAX_CONCURRENT_COMMANDS`; and a call arriving at capacity
is rejected with the rate-limit error before any spawn, leaving the set
untouched. -/
theorem runCommand_admission_control (cfg : Config) :
    (∀ events : List Event, ∀ st ∈ statesFrom cfg [] events,
        st.length ≤ cfg.maxConcurrentCommands) ∧
    (∀ (active : List String) (commandId command : String) (args : List JSArg)
        (child : ChildBehavior),
        cfg.maxConcurrentCommands ≤ active.length →
        runCommand cfg active commandId command args child =
          { reply := .rejected .tooManyConcurrent, duringActive := active,
            finalActive := active, spawned := none, killedByTimeout := false }) := by
  constructor
  · intro events st hst
    exact statesFrom_bounded cfg events [] (by simp) st hst
  · intro active commandId command args child hcap
    simp [runCommand, admitCommand, hcap]

/-- Witness for C3: a concrete reached state obeys the default ceiling,
and a call arriving with three active commands is rejected untouched. -/
theorem runCommand_admission_control_witness :
    (jsSetAdd [] "id0").length ≤ defaultConfig.maxConcurrentCommands ∧
    runCommand defaultConfig ["a", "b", "c"] "id1" "ansible" []
        (.closes (some 0) "" "") =
      { reply := .rejected .tooManyConcurrent, duringActive := ["a", "b", "c"],
        finalActive := ["a", "b", "c"], spawned := none, killedByTimeout := false } :=
  ⟨(runCommand_admission_control defaultConfig).1 [Event.start "id0"]
      (jsSetAdd [] "id0") (by decide),
   (runCommand_admission_control defaultConfig).2 ["a", "b", "c"] "id1" "ansible" []
      (.closes (some 0) "" "") (by decide)⟩

/-- C4: guaranteed release.  Whatever happens after admission — allow-list
rejection, non-string argument, spawn failure, timeout, or normal close —
the `finally` clause removes the fresh command id, restoring
`activeCommands` to its value before the call. -/
theorem runCommand_guaranteed_release (cfg : Config) (active : List String)
    (commandId command : String) (args : List JSArg) (child : ChildBehavior)
    (hadm : active.length < cfg.maxConcurrentCommands)
    (hfresh : commandId ∉ active) :
    (runCommand cfg active commandId command args child).finalActive = active := by
  have hcap : ¬ cfg.maxConcurrentCommands ≤ active.length := Nat.not_le_of_lt hadm
  simp only [runCommand, admitCommand, if_neg hcap]
  exact jsSetDelete_jsSetAdd active commandId hfresh

/-- Witness for C4: the disallowed-program path releases its slot. -/
theorem runCommand_guaranteed_release_witness :
    (runCommand defaultConfig ["x"] "id2" "sh" [JSArg.str "-c"]
        (.killedAtDeadline "" "")).finalActive = ["x"] :=
  runCommand_guaranteed_release defaultConfig ["x"] "id2" "sh" [JSArg.str "-c"]
    (.killedAtDeadline "" "") (by decide) (by decide)

/-- C6 counterexample: an admitted `ansible` call whose child is still
running at the deadline does not fail with the timeout error — spawn's own
timeout kills the child first, the handler's guarded reject is skipped,
and the killed child's `close` resolves the call with exit code null and
`success = false`, carrying the partial output. -/
theorem runCommand_deadline_not_timeout_error :
    (runCommand defaultConfig [] "id3" "ansible" [JSArg.str "all"]
        (.killedAtDeadline "partial" "")).reply =
      .resolved { code := none, stdout := jsTrim "partial", stderr := jsTrim "",
                  success := ((none : Option Int) == some 0) } ∧
    (runCommand defaultConfig [] "id3" "ansible" [JSArg.str "all"]
        (.killedAtDeadline "partial" "")).reply ≠
      .rejected (.timedOut defaultConfig.commandTimeout) ∧
    ((none : Option Int) == some 0) = false := by
  decide

/-- C6 amended: for every admitted call whose child is still running at
the `COMMAND_TIMEOUT` deadline (default 30000 ms), spawn's own timeout
kills the child; the call then resolves with exit code null and
`success = false` carrying the trimmed partial stdout/stderr — so the
partial output is never surfaced as a successful result, but the
settlement is a failed resolution, not the handler's timeout rejection. -/
theorem runCommand_deadline_kill_failure (cfg : Config) (active : List String)
    (commandId command : String) (args : List JSArg) (sanitized : List String)
    (out err : String)
    (hadm : active.length < cfg.maxConcurrentCommands)
    (hallowed : command ∈ allowedCommands)
    (hargs : sanitizeArgs args = some sanitized) :
    (runCommand cfg active commandId command args (.killedAtDeadline out err)).reply =
      .resolved { code := none, stdout := jsTrim out, stderr := jsTrim err,
                  success := ((none : Option Int) == some 0) } ∧
    (runCommand cfg active commandId command args
        (.killedAtDeadline out err)).killedByTimeout = true ∧
    (∀ r : RunResult,
      (runCommand cfg active commandId command args (.killedAtDeadline out err)).reply =
        .resolved r → r.success = false) ∧
    (∀ e : RunError,
      (runCommand cfg active commandId command args (.killedAtDeadline out err)).reply ≠
        .rejected e) ∧
    defaultConfig.commandTimeout = 30000 := by
  have hcap : ¬ cfg.maxConcurrentCommands ≤ active.length := Nat.not_le_of_lt hadm
  refine ⟨?_, ?_, ?_, ?_, rfl⟩
  · simp [runCommand, admitCommand, hcap, hallowed, hargs]
  · simp [runCommand, admitCommand, hcap, hallowed, hargs]
  · intro r hr
    simp [runCommand, admitCommand, hcap, hallowed, hargs] at hr
    rw [← hr]
  · intro e he
    simp [runCommand, admitCommand, hcap, hallowed, hargs] at he

/-- Witness for the amended C6: a concrete call killed at the deadline
resolves as a failure. -/
theorem runCommand_deadline_kill_failure_witness :
    (runCommand defaultConfig [] "id8" "ansible" [JSArg.str "webservers"]
        (.killedAtDeadline " partial " "boom")).reply =
      .resolved { code := none, stdout := jsTrim " partial ", stderr := jsTrim "boom",
                  success := ((none : Option Int) == some 0) } ∧
    (runCommand defaultConfig [] "id8" "ansible" [JSArg.str "webservers"]
        (.killedAtDeadline " partial " "boom")).killedByTimeout = true ∧
    (∀ r : RunResult,
      (runCommand defaultConfig [] "id8" "ansible" [JSArg.str "webservers"]
          (.killedAtDeadline " partial " "boom")).reply =
        .resolved r → r.success = false) ∧
    (∀ e : RunError,
      (runCommand defaultConfig [] "id8" "ansible" [JSArg.str "webservers"]
          (.killedAtDeadline " partial " "boom")).reply ≠ .rejected e) ∧
    defaultConfig.commandTimeout = 30000 :=
  runCommand_deadline_kill_failure defaultConfig [] "id8" "ansible"
    [JSArg.str "webservers"] ["webservers"] " partial " "boom"
    (by decide) (by decide) rfl



/-- C7: a non-zero exit is not an error.  When the child closes with an
exit code, the call resolves (never rejects) with the trimmed captured
streams and `success = (exitCode == 0)`. -/
theorem runCommand_nonzero_exit_not_error (cfg : Config) (active : List String)
    (commandId command : String) (args : List JSArg) (sanitized : List String)
    (code : Int) (out err : String)
    (hadm : active.length < cfg.maxConcurrentCommands)
    (hallowed : command ∈ allowedCommands)
    (hargs : sanitizeArgs args = some sanitized) :
    (runCommand cfg active commandId command args (.closes (some code) out err)).reply =
      .resolved { code := some code, stdout := jsTrim out, stderr := jsTrim err,
                  success := code == 0 } := by
  have hcap : ¬ cfg.maxConcurrentCommands ≤ active.length := Nat.not_le_of_lt hadm
  simp [runCommand, admitCommand, hcap, hallowed, hargs]

/-- Witness for C7: exit code 2 resolves with `success = false` and the
captured output still available. -/
theorem runCommand_nonzero_exit_not_error_witness :
    (runCommand defaultConfig [] "id4" "ansible" [JSArg.str "--version"]
        (.closes (some 2) " out " "err")).reply =
      .resolved { code := some 2, stdout := jsTrim " out ", stderr := jsTrim "err",
                  success := ((2 : Int) == 0) } :=
  runCommand_nonzero_exit_not_error defaultConfig [] "id4" "ansible"
    [JSArg.str "--version"] ["--version"] 2 " out " "err" (by decide) (by decide) rfl

/-- C10: allow-list rejection.  Any program other than `ansible` or
`ansible-playbook` is rejected with the not-allowed error and nothing is
spawned; every program the LilyGo device tools pass is outside the
allow-list, so those tools can never execute their external command. -/
theorem runCommand_allowlist_rejects (cfg : Config) :
    (∀ (active : List String) (commandId command : String) (args : List JSArg)
        (child : ChildBehavior),
        command ∉ allowedCommands →
        active.length < cfg.maxConcurrentCommands →
        (runCommand cfg active commandId command args child).reply =
            .rejected (.commandNotAllowed command) ∧
        (runCommand cfg active commandId command args child).spawned = none) ∧
    (∀ program ∈ deviceToolPrograms, program ∉ allowedCommands) := by
  constructor
  · intro active commandId command args child hnot hadm
    have hcap : ¬ cfg.maxConcurrentCommands ≤ active.length := Nat.not_le_of_lt hadm
    constructor <;> simp [runCommand, admitCommand, hcap, hnot]
  · decide

/-- Witness for C10: `listLilygoDevices`'s `ls` invocation is rejected
without a spawn, and `sendLilygoCommand`'s `sh` is outside the allow-list. -/
theorem runCommand_allowlist_rejects_witness :
    ((runCommand defaultConfig [] "id5" "ls"
          [JSArg.str "/dev/cu.usbmodem*", JSArg.str "/dev/tty.usbmodem*"]
          (.closes (some 0) "" "")).reply = .rejected (.commandNotAllowed "ls") ∧
      (runCommand defaultConfig [] "id5" "ls"
          [JSArg.str "/dev/cu.usbmodem*", JSArg.str "/dev/tty.usbmodem*"]
          (.closes (some 0) "" "")).spawned = none) ∧
    sendLilygoCommandProgram ∉ allowedCommands :=
  ⟨(runCommand_allowlist_rejects defaultConfig).1 [] "id5" "ls"
      [JSArg.str "/dev/cu.usbmodem*", JSArg.str "/dev/tty.usbmodem*"]
      (.closes (some 0) "" "") (by decide) (by decide),
   (runCommand_allowlist_rejects defaultConfig).2 sendLilygoCommandProgram (by decide)⟩

/-- C5 counterexample: `executeWithAnsible` of the decider builds a single
shell command line by concatenating the user-supplied command into it and
hands it to `execSync`, i.e. a shell interprets it — so not every
execution performed by this repository's dispatch core is an
argument-vector invocation. -/
theorem executeWithAnsible_shell_interpolation :
    executeWithAnsibleInvocation "inventory.ini" "mac-pro" "uptime" =
      .shellExec "ansible -i inventory.ini -m command -a \"uptime\" mac-pro" ∧
    (executeWithAnsibleInvocation "inventory.ini" "mac-pro" "uptime").usesShell = true ∧
    jsIncludes (ansibleCmdString "inventory.ini" "uptime" "mac-pro") "uptime" = true := by
  decide

/-- C5 amended: every execution actually performed by the guarded executor
`runCommand` is an argument-vector spawn whose elements are the caller's
program and sanitised arguments, never a concatenated shell string. -/
theorem runCommand_argv_spawn (cfg : Config) (active : List String)
    (commandId command : String) (args : List JSArg) (child : ChildBehavior)
    (inv : Invocation)
    (hspawn : (runCommand cfg active commandId command args child).spawned = some inv) :
    (∃ sanitized, sanitizeArgs args = some sanitized ∧
        inv = .argvSpawn command sanitized) ∧
    inv.usesShell = false := by
  by_cases hcap : cfg.maxConcurrentCommands ≤ active.length
  · simp [runCommand, admitCommand, hcap] at hspawn
  · by_cases hallow : command ∈ allowedCommands
    · cases hargs : sanitizeArgs args with
      | none => simp [runCommand, admitCommand, hcap, hallow, hargs] at hspawn
      | some sanitized =>
          cases child <;>
            simp [runCommand, admitCommand, hcap, hallow, hargs] at hspawn <;>
          · subst hspawn
            exact ⟨⟨sanitized, rfl, rfl⟩, rfl⟩
    · simp [runCommand, admitCommand, hcap, hallow] at hspawn

/-- Witness for the amended C5: a concrete admitted `ansible` call spawns
exactly the argument vector it was given. -/
theorem runCommand_argv_spawn_witness :
    (∃ sanitized, sanitizeArgs [JSArg.str "-i", JSArg.str "inventory.ini"] =
        some sanitized ∧
      Invocation.argvSpawn "ansible" ["-i", "inventory.ini"] =
        .argvSpawn "ansible" sanitized) ∧
    (Invocation.argvSpawn "ansible" ["-i", "inventory.ini"]).usesShell = false :=
  runCommand_argv_spawn defaultConfig [] "id6" "ansible"
    [JSArg.str "-i", JSArg.str "inventory.ini"] (.closes (some 0) "" "")
    (.argvSpawn "ansible" ["-i", "inventory.ini"]) rfl

end MCP
